import Mathlib

/-!
Shallow embedding of the AliexpressApi wrapper (aliexpress_api/api.py).

Each method of the Python class AliexpressApi is embedded as a pure Lean
function.  The mutable pieces of state are passed explicitly:

- the categories cache (self.categories, a Python attribute holding None or a
  list) is an Option (List Category) argument, and the methods that may write
  it return the cache after the call;
- the vendor transport (api_request) is replaced by its mocked response, given
  as an argument; functions that must distinguish "no transport call" from
  "one transport call" also return a Nat counting transport invocations;
- Python exceptions become the error side of Except.

The helpers and models packages of the repository are not among the sources
here; the few helpers the claims depend on are modelled from the spec and say
so in their doc comments.  Raw vendor product records and parsed products are
type parameters, and the shared product-parsing transform parse_product is a
function parameter, since its definition lives outside the sources.
-/

namespace Aliexpress

/-- Modelled from the spec: the link type option of link generation, a normal
link with standard commission or a hot link with hot product commission
(models.LinkType; the models package is not among the sources). -/
inductive LinkType where
  | NORMAL
  | HOT
deriving DecidableEq, Repr

/-- Modelled from the spec: a category record of the flat category list.
Parent categories lack a parent-id field, child categories carry one
(models.Category and models.ChildCategory; the models package is not among
the sources).  A missing parent-id field is parent_category_id = none. -/
structure Category where
  category_id : Int
  category_name : String
  parent_category_id : Option Int
deriving DecidableEq, Repr

/-- Exceptions raised by api.py (errors package): the three not-found variants,
the missing tracking id error, and the transport error propagated by
api_request. -/
inductive ApiException where
  | ProductsNotFoudException (msg : String)
  | CategoriesNotFoudException (msg : String)
  | OrdersNotFoundException (msg : String)
  | InvalidTrackingIdException (msg : String)
  | ApiRequestException (msg : String)
deriving DecidableEq, Repr

/-- The immutable client fields set by AliexpressApi.__init__ (api.py lines
31 to 46).  The mutable categories cache initialized to None there is passed
separately to the methods that touch it. -/
structure AliexpressApi where
  _key : String
  _secret : String
  _tracking_id : Option String
  _language : String
  _currency : String
  _app_signature : Option String
deriving DecidableEq, Repr

/-- Python truthiness of an optional string attribute: None and the empty
string are falsy, every other string is truthy. -/
def pyTruthyStr : Option String → Bool
  | Option.none => false
  | some s => !s.isEmpty

/-- Python truthiness of the categories cache attribute: None and the empty
list are falsy, a nonempty list is truthy. -/
def pyTruthyCache : Option (List Category) → Bool
  | Option.none => false
  | some l => !l.isEmpty

/-- A Python argument that may be a string, a list of strings, or None, the
Union[str, List[str]] = None parameters of api.py. -/
inductive StrArg where
  | none
  | str (s : String)
  | list (l : List String)
deriving DecidableEq, Repr

/-- Modelled from the spec: get_list_as_string normalizes a list-or-scalar
input into a single comma-joined string; empty and None pass through as None
(helpers package, not among the sources). -/
def get_list_as_string : StrArg → Option String
  | StrArg.none => Option.none
  | StrArg.str s => some s
  | StrArg.list [] => Option.none
  | StrArg.list l => some (String.intercalate (",") l)

/-- Python str applied to an optional integer, as in the assignment
request.delivery_days = str(delivery_days): str(None) is the four character
string None, str of an integer is its decimal form. -/
def pyStr : Option Int → String
  | Option.none => "None"
  | some n => toString n

/-- Modelled from the spec: parse_products maps each raw product record
through the shared product-parsing transform (helpers package, not among the
sources). -/
def parse_products {Raw Parsed : Type} (parse_product : Raw → Parsed)
    (products : List Raw) : List Parsed :=
  products.map parse_product

/-- A fragment of Python runtime values, enough to state what the trailing
comma in the assignment request.app = app, produces: the field receives the
one-element tuple holding the argument. -/
inductive PyVal where
  | none
  | str (s : String)
  | tuple (l : List PyVal)

/-! Request objects.  Each structure lists exactly the fields api.py assigns
on the corresponding vendor request object, with the value each assignment
produces. -/

/-- Fields assigned on AliexpressAffiliateProductQueryRequest by get_products
(api.py lines 236 to 251). -/
structure AliexpressAffiliateProductQueryRequest where
  app_signature : Option String
  category_ids : Option String
  delivery_days : Option String
  fields : Option String
  keywords : Option String
  max_sale_price : Option Int
  min_sale_price : Option Int
  page_no : Option Int
  page_size : Option Int
  platform_product_type : Option String
  ship_to_country : Option String
  sort : Option String
  target_currency : String
  target_language : String
  tracking_id : Option String
deriving DecidableEq, Repr

/-- Fields assigned on AliexpressAffiliateHotproductQueryRequest by
get_hotproducts (api.py lines 171 to 186); the field set and the assignments
coincide with those of get_products. -/
structure AliexpressAffiliateHotproductQueryRequest where
  app_signature : Option String
  category_ids : Option String
  delivery_days : Option String
  fields : Option String
  keywords : Option String
  max_sale_price : Option Int
  min_sale_price : Option Int
  page_no : Option Int
  page_size : Option Int
  platform_product_type : Option String
  ship_to_country : Option String
  sort : Option String
  target_currency : String
  target_language : String
  tracking_id : Option String
deriving DecidableEq, Repr

/-- Fields assigned on AliexpressAffiliateLinkGenerateRequest by
get_affiliate_links (api.py lines 118 to 122). -/
structure AliexpressAffiliateLinkGenerateRequest where
  app_signature : Option String
  source_values : Option String
  promotion_link_type : LinkType
  tracking_id : Option String
deriving DecidableEq, Repr

/-- Fields assigned on AliexpressAffiliateProductSmartmatchRequest by
smart_match_product (api.py lines 364 to 378).  The app field holds a PyVal
because the source assignment request.app = app, ends in a comma and so
stores a one-element tuple. -/
structure AliexpressAffiliateProductSmartmatchRequest where
  app : PyVal
  app_signature : Option String
  country : Option String
  device : Option String
  device_id : String
  fields : Option String
  keywords : Option String
  page_no : Option Int
  product_id : Option String
  site : Option String
  target_currency : Option String
  target_language : Option String
  tracking_id : Option String
  user : Option String

/-- Request construction of get_products (api.py lines 236 to 251). -/
def buildProductQueryRequest (self : AliexpressApi)
    (category_ids : StrArg) (delivery_days : Option Int) (fields : StrArg)
    (keywords : Option String)
    (max_sale_price min_sale_price page_no page_size : Option Int)
    (platform_product_type ship_to_country sort : Option String) :
    AliexpressAffiliateProductQueryRequest :=
  { app_signature := self._app_signature
    category_ids := get_list_as_string category_ids
    delivery_days := some (pyStr delivery_days)
    fields := get_list_as_string fields
    keywords := keywords
    max_sale_price := max_sale_price
    min_sale_price := min_sale_price
    page_no := page_no
    page_size := page_size
    platform_product_type := platform_product_type
    ship_to_country := ship_to_country
    sort := sort
    target_currency := self._currency
    target_language := self._language
    tracking_id := self._tracking_id }

/-- Request construction of get_hotproducts (api.py lines 171 to 186). -/
def buildHotproductQueryRequest (self : AliexpressApi)
    (category_ids : StrArg) (delivery_days : Option Int) (fields : StrArg)
    (keywords : Option String)
    (max_sale_price min_sale_price page_no page_size : Option Int)
    (platform_product_type ship_to_country sort : Option String) :
    AliexpressAffiliateHotproductQueryRequest :=
  { app_signature := self._app_signature
    category_ids := get_list_as_string category_ids
    delivery_days := some (pyStr delivery_days)
    fields := get_list_as_string fields
    keywords := keywords
    max_sale_price := max_sale_price
    min_sale_price := min_sale_price
    page_no := page_no
    page_size := page_size
    platform_product_type := platform_product_type
    ship_to_country := ship_to_country
    sort := sort
    target_currency := self._currency
    target_language := self._language
    tracking_id := self._tracking_id }

/-- Request construction of get_affiliate_links (api.py lines 118 to 122). -/
def buildLinkGenerateRequest (self : AliexpressApi)
    (links : StrArg) (link_type : LinkType) :
    AliexpressAffiliateLinkGenerateRequest :=
  { app_signature := self._app_signature
    source_values := get_list_as_string links
    promotion_link_type := link_type
    tracking_id := self._tracking_id }

/-- Request construction of smart_match_product (api.py lines 364 to 378);
the assignment of the app field carries the trailing comma of the source. -/
def buildProductSmartmatchRequest (self : AliexpressApi)
    (device_id : String) (app : PyVal) (country device : Option String)
    (fields : StrArg) (keywords : Option String) (page_no : Option Int)
    (product_id site target_currency target_language tracking_id user :
      Option String) :
    AliexpressAffiliateProductSmartmatchRequest :=
  { app := PyVal.tuple [app]
    app_signature := self._app_signature
    country := country
    device := device
    device_id := device_id
    fields := get_list_as_string fields
    keywords := keywords
    page_no := page_no
    product_id := product_id
    site := site
    target_currency := target_currency
    target_language := target_language
    tracking_id := tracking_id
    user := user }

/-! Response envelopes, as the operations read them from the mocked
transport.  A list field named after the inner vendor attribute stands for
the nested access of the source, for example products here is the source
access response.products.product. -/

/-- Response consumed by get_products_details: current_record_count and the
raw record list response.products.product. -/
structure ProductdetailGetResponse (Raw : Type) where
  current_record_count : Int
  products : List Raw
deriving DecidableEq, Repr

/-- Response consumed by get_affiliate_links: total_result_count and the link
list response.promotion_links.promotion_link. -/
structure LinkGenerateResponse (Link : Type) where
  total_result_count : Int
  promotion_link : List Link
deriving DecidableEq, Repr

/-- Response consumed by get_products and get_hotproducts:
current_record_count and the raw record list response.products.product. -/
structure QueryResponse (Raw : Type) where
  current_record_count : Int
  products : List Raw
deriving DecidableEq, Repr

/-- The envelope get_products and get_hotproducts return: the response with
its products attribute overwritten by the parsed list (api.py lines 190 to
192 and 255 to 257). -/
structure QueryResult (Parsed : Type) where
  current_record_count : Int
  products : List Parsed
deriving DecidableEq, Repr

/-- Response consumed by get_categories: total_result_count and the category
list response.categories.category. -/
structure CategoryGetResponse where
  total_result_count : Int
  categories : List Category
deriving DecidableEq, Repr

/-- Response consumed by smart_match_product.  The source checks
hasattr(response, products) and the truthiness of that attribute; products =
none models a missing or Python-falsy attribute, products = some l models a
truthy attribute whose inner product list is l. -/
structure ProductSmartmatchResponse (Raw : Type) where
  products : Option (List Raw)
deriving DecidableEq, Repr

/-- The envelope smart_match_product returns: the response with its products
attribute overwritten by the parsed list (api.py line 383). -/
structure SmartmatchResult (Parsed : Type) where
  products : List Parsed
deriving DecidableEq, Repr

/-- Response consumed and returned by get_order_list: current_record_count
and the order list; the source returns the response object unchanged. -/
structure OrderListResponse (Order : Type) where
  current_record_count : Int
  orders : List Order
deriving DecidableEq, Repr

/-! The operations. -/

/-- get_products_details (api.py lines 49 to 89).  The request built on lines
74 to 81 does not influence the mocked transport response and involves the
helper get_product_ids, which is not among the sources, so it is not
replayed here; the response handling of lines 83 to 89 is exact: a positive
current_record_count maps the raw records through parse_products, otherwise
ProductsNotFoudException is raised. -/
def get_products_details {Raw Parsed : Type} (self : AliexpressApi)
    (product_ids fields : StrArg) (country : Option String)
    (parse_product : Raw → Parsed)
    (transport : ProductdetailGetResponse Raw) :
    Except ApiException (List Parsed) :=
  if transport.current_record_count > 0 then
    Except.ok (parse_products parse_product transport.products)
  else
    Except.error (ApiException.ProductsNotFoudException
      ("No products found with current parameters"))

/-- get_affiliate_links (api.py lines 92 to 129).  A Python-falsy tracking id
raises InvalidTrackingIdException before the transport is invoked; otherwise
the request is built and one transport call is made, and a positive
total_result_count returns response.promotion_links.promotion_link unchanged
while zero raises ProductsNotFoudException.  The second component counts
transport invocations. -/
def get_affiliate_links {Link : Type} (self : AliexpressApi)
    (links : StrArg) (link_type : LinkType)
    (transport : LinkGenerateResponse Link) :
    Except ApiException (List Link) × Nat :=
  if !pyTruthyStr self._tracking_id then
    (Except.error (ApiException.InvalidTrackingIdException
      ("The tracking id is required for affiliate links")), 0)
  else
    let _request := buildLinkGenerateRequest self links link_type
    let response := transport
    if response.total_result_count > 0 then
      (Except.ok response.promotion_link, 1)
    else
      (Except.error (ApiException.ProductsNotFoudException
        ("Affiliate links not available")), 1)

/-- get_hotproducts (api.py lines 132 to 194): builds the request of lines
171 to 186, then a positive current_record_count overwrites the products
attribute with the parsed list and returns the envelope, while zero raises
ProductsNotFoudException. -/
def get_hotproducts {Raw Parsed : Type} (self : AliexpressApi)
    (category_ids : StrArg) (delivery_days : Option Int) (fields : StrArg)
    (keywords : Option String)
    (max_sale_price min_sale_price page_no page_size : Option Int)
    (platform_product_type ship_to_country sort : Option String)
    (parse_product : Raw → Parsed)
    (transport : QueryResponse Raw) :
    Except ApiException (QueryResult Parsed) :=
  let _request := buildHotproductQueryRequest self category_ids delivery_days
    fields keywords max_sale_price min_sale_price page_no page_size
    platform_product_type ship_to_country sort
  if transport.current_record_count > 0 then
    Except.ok { current_record_count := transport.current_record_count
                products := parse_products parse_product transport.products }
  else
    Except.error (ApiException.ProductsNotFoudException
      ("No products found with current parameters"))

/-- get_products (api.py lines 197 to 259): builds the request of lines 236
to 251, then a positive current_record_count overwrites the products
attribute with the parsed list and returns the envelope, while zero raises
ProductsNotFoudException. -/
def get_products {Raw Parsed : Type} (self : AliexpressApi)
    (category_ids : StrArg) (delivery_days : Option Int) (fields : StrArg)
    (keywords : Option String)
    (max_sale_price min_sale_price page_no page_size : Option Int)
    (platform_product_type ship_to_country sort : Option String)
    (parse_product : Raw → Parsed)
    (transport : QueryResponse Raw) :
    Except ApiException (QueryResult Parsed) :=
  let _request := buildProductQueryRequest self category_ids delivery_days
    fields keywords max_sale_price min_sale_price page_no page_size
    platform_product_type ship_to_country sort
  if transport.current_record_count > 0 then
    Except.ok { current_record_count := transport.current_record_count
                products := parse_products parse_product transport.products }
  else
    Except.error (ApiException.ProductsNotFoudException
      ("No products found with current parameters"))

/-- get_categories (api.py lines 262 to 282).  The transport argument is the
outcome of api_request: a transport failure is propagated unchanged as
ApiRequestException.  A positive total_result_count stores the fetched list
in the cache and returns it; zero raises CategoriesNotFoudException and
leaves the cache untouched.  Components: result, cache after the call,
transport invocations. -/
def get_categories (self : AliexpressApi) (cache : Option (List Category))
    (transport : Except String CategoryGetResponse) :
    Except ApiException (List Category) × Option (List Category) × Nat :=
  match transport with
  | Except.error e => (Except.error (ApiException.ApiRequestException e), cache, 1)
  | Except.ok response =>
    if response.total_result_count > 0 then
      (Except.ok response.categories, some response.categories, 1)
    else
      (Except.error (ApiException.CategoriesNotFoudException
        ("No categories found")), cache, 1)

/-- Modelled from the spec: filter_parent_categories keeps the categories
lacking a parent-id field (helpers package, not among the sources). -/
def filter_parent_categories (categories : List Category) : List Category :=
  categories.filter (fun c => c.parent_category_id.isNone)

/-- Modelled from the spec: filter_child_categories keeps the categories
whose parent-id field matches the given parent category id (helpers package,
not among the sources). -/
def filter_child_categories (categories : List Category)
    (parent_category_id : Int) : List Category :=
  categories.filter (fun c => c.parent_category_id == some parent_category_id)

/-- get_parent_categories (api.py lines 285 to 301): when use_cache is false
or the cache is Python-falsy, get_categories runs first (one transport call,
its exception propagated); then the cached list is filtered to the parent
categories.  Components: result, cache after the call, transport
invocations. -/
def get_parent_categories (self : AliexpressApi) (use_cache : Bool)
    (cache : Option (List Category))
    (transport : Except String CategoryGetResponse) :
    Except ApiException (List Category) × Option (List Category) × Nat :=
  if !use_cache || !pyTruthyCache cache then
    match get_categories self cache transport with
    | (Except.error e, cache2, n) => (Except.error e, cache2, n)
    | (Except.ok _, cache2, n) =>
      (Except.ok (filter_parent_categories (cache2.getD [])), cache2, n)
  else
    (Except.ok (filter_parent_categories (cache.getD [])), cache, 0)

/-- get_child_categories (api.py lines 304 to 321): when use_cache is false
or the cache is Python-falsy, get_categories runs first (one transport call,
its exception propagated); then the cached list is filtered to the children
of the given parent category id.  Components: result, cache after the call,
transport invocations. -/
def get_child_categories (self : AliexpressApi) (parent_category_id : Int)
    (use_cache : Bool) (cache : Option (List Category))
    (transport : Except String CategoryGetResponse) :
    Except ApiException (List Category) × Option (List Category) × Nat :=
  if !use_cache || !pyTruthyCache cache then
    match get_categories self cache transport with
    | (Except.error e, cache2, n) => (Except.error e, cache2, n)
    | (Except.ok _, cache2, n) =>
      (Except.ok (filter_child_categories (cache2.getD []) parent_category_id),
        cache2, n)
  else
    (Except.ok (filter_child_categories (cache.getD []) parent_category_id),
      cache, 0)

/-- smart_match_product (api.py lines 324 to 386): builds the request of
lines 364 to 378, then a present and truthy products attribute is
overwritten with the parsed list and the envelope returned, otherwise
ProductsNotFoudException is raised. -/
def smart_match_product {Raw Parsed : Type} (self : AliexpressApi)
    (device_id : String) (app : PyVal) (country device : Option String)
    (fields : StrArg) (keywords : Option String) (page_no : Option Int)
    (product_id site target_currency target_language tracking_id user :
      Option String)
    (parse_product : Raw → Parsed)
    (transport : ProductSmartmatchResponse Raw) :
    Except ApiException (SmartmatchResult Parsed) :=
  let _request := buildProductSmartmatchRequest self device_id app country
    device fields keywords page_no product_id site target_currency
    target_language tracking_id user
  match transport.products with
  | some product =>
    Except.ok { products := parse_products parse_product product }
  | Option.none =>
    Except.error (ApiException.ProductsNotFoudException
      ("No products found with current parameters"))

/-- get_order_list (api.py lines 388 to 431).  The request built on lines 416
to 424 does not influence the mocked transport response and is not replayed
here; the response handling of lines 426 to 431 is exact: a positive
current_record_count returns the response unchanged, zero raises
OrdersNotFoundException. -/
def get_order_list {Order : Type} (self : AliexpressApi)
    (status start_time end_time : String) (fields : StrArg)
    (locale_site : Option String) (page_no page_size : Option Int)
    (transport : OrderListResponse Order) :
    Except ApiException (OrderListResponse Order) :=
  if transport.current_record_count > 0 then
    Except.ok transport
  else
    Except.error (ApiException.OrdersNotFoundException
      ("No orders found for the specified parameters"))

/-! Concrete clients used by the witnesses. -/

/-- A concrete client with a configured tracking id. -/
def sampleClient : AliexpressApi :=
  { _key := "key"
    _secret := "secret"
    _tracking_id := some ("abc123")
    _language := "EN"
    _currency := "USD"
    _app_signature := Option.none }

/-- A concrete client whose tracking id is not configured (None). -/
def sampleClientNoTracking : AliexpressApi :=
  { sampleClient with _tracking_id := Option.none }

/-- A concrete client whose tracking id is the empty string. -/
def sampleClientEmptyTracking : AliexpressApi :=
  { sampleClient with _tracking_id := some ("") }

/-- C1: when the mocked transport reports a record count of zero, each of the
six fetch-class operations fails with the not-found error of its entity kind
(products, categories, orders) and performs no further transformation: the
result is exactly the error, no parsing is applied and the category cache is
left untouched. -/
theorem claim_C1 {Raw Parsed Link Order : Type}
    (self : AliexpressApi) (parse_product : Raw → Parsed)
    (a1 a2 : StrArg) (country : Option String) (link_type : LinkType)
    (dd : Option Int) (kw : Option String) (p1 p2 p3 p4 : Option Int)
    (s1 s2 s3 : Option String) (cache : Option (List Category))
    (st t1 t2 : String)
    (r1 : ProductdetailGetResponse Raw) (r2 : LinkGenerateResponse Link)
    (r3 r4 : QueryResponse Raw) (r5 : CategoryGetResponse)
    (r6 : OrderListResponse Order)
    (htrack : pyTruthyStr self._tracking_id = true)
    (h1 : r1.current_record_count = 0) (h2 : r2.total_result_count = 0)
    (h3 : r3.current_record_count = 0) (h4 : r4.current_record_count = 0)
    (h5 : r5.total_result_count = 0) (h6 : r6.current_record_count = 0) :
    get_products_details self a1 a2 country parse_product r1
      = Except.error (ApiException.ProductsNotFoudException
          ("No products found with current parameters"))
    ∧ get_affiliate_links self a1 link_type r2
      = (Except.error (ApiException.ProductsNotFoudException
          ("Affiliate links not available")), 1)
    ∧ get_hotproducts self a1 dd a2 kw p1 p2 p3 p4 s1 s2 s3 parse_product r3
      = Except.error (ApiException.ProductsNotFoudException
          ("No products found with current parameters"))
    ∧ get_products self a1 dd a2 kw p1 p2 p3 p4 s1 s2 s3 parse_product r4
      = Except.error (ApiException.ProductsNotFoudException
          ("No products found with current parameters"))
    ∧ get_categories self cache (Except.ok r5)
      = (Except.error (ApiException.CategoriesNotFoudException
          ("No categories found")), cache, 1)
    ∧ get_order_list self st t1 t2 a1 s1 p1 p2 r6
      = Except.error (ApiException.OrdersNotFoundException
          ("No orders found for the specified parameters")) := by
  refine ⟨?_, ?_, ?_, ?_, ?_, ?_⟩
  · simp [get_products_details, h1]
  · simp [get_affiliate_links, htrack, h2]
  · simp [get_hotproducts, h3]
  · simp [get_products, h4]
  · simp [get_categories, h5]
  · simp [get_order_list, h6]

/-- Witness for C1 at concrete inputs: the client has tracking id abc123 and
every mocked response carries a record count of zero. -/
theorem claim_C1_witness :
    get_products_details sampleClient StrArg.none StrArg.none Option.none
        (fun n : Nat => n) ⟨0, []⟩
      = Except.error (ApiException.ProductsNotFoudException
          ("No products found with current parameters"))
    ∧ get_affiliate_links sampleClient StrArg.none LinkType.NORMAL
        (⟨0, []⟩ : LinkGenerateResponse Nat)
      = (Except.error (ApiException.ProductsNotFoudException
          ("Affiliate links not available")), 1)
    ∧ get_hotproducts sampleClient StrArg.none Option.none StrArg.none
        Option.none Option.none Option.none Option.none Option.none
        Option.none Option.none Option.none (fun n : Nat => n) ⟨0, []⟩
      = Except.error (ApiException.ProductsNotFoudException
          ("No products found with current parameters"))
    ∧ get_products sampleClient StrArg.none Option.none StrArg.none
        Option.none Option.none Option.none Option.none Option.none
        Option.none Option.none Option.none (fun n : Nat => n) ⟨0, []⟩
      = Except.error (ApiException.ProductsNotFoudException
          ("No products found with current parameters"))
    ∧ get_categories sampleClient Option.none (Except.ok ⟨0, []⟩)
      = (Except.error (ApiException.CategoriesNotFoudException
          ("No categories found")), Option.none, 1)
    ∧ get_order_list sampleClient ("Payment Completed") ("2020-01-01 00:00:00")
        ("2020-02-01 00:00:00") StrArg.none Option.none Option.none
        Option.none (⟨0, []⟩ : OrderListResponse Nat)
      = Except.error (ApiException.OrdersNotFoundException
          ("No orders found for the specified parameters")) :=
  @claim_C1 Nat Nat Nat Nat sampleClient (fun n => n) StrArg.none StrArg.none
    Option.none LinkType.NORMAL Option.none Option.none Option.none
    Option.none Option.none Option.none Option.none Option.none Option.none
    Option.none ("Payment Completed") ("2020-01-01 00:00:00")
    ("2020-02-01 00:00:00") ⟨0, []⟩ ⟨0, []⟩ ⟨0, []⟩ ⟨0, []⟩ ⟨0, []⟩ ⟨0, []⟩
    (by decide) rfl rfl rfl rfl rfl rfl

/-- C2: on a client whose tracking id is not configured (Python-falsy),
get_affiliate_links raises InvalidTrackingIdException with zero transport
invocations, regardless of the links and link_type arguments. -/
theorem claim_C2 {Link : Type} (self : AliexpressApi)
    (links : StrArg) (link_type : LinkType)
    (transport : LinkGenerateResponse Link)
    (h : pyTruthyStr self._tracking_id = false) :
    get_affiliate_links self links link_type transport
      = (Except.error (ApiException.InvalidTrackingIdException
          ("The tracking id is required for affiliate links")), 0) := by
  simp [get_affiliate_links, h]

/-- Witness for C2: the client with an unconfigured (None) tracking id,
against a mocked response that would otherwise succeed. -/
theorem claim_C2_witness :
    get_affiliate_links sampleClientNoTracking StrArg.none LinkType.NORMAL
        (⟨1, [(5 : Nat)]⟩ : LinkGenerateResponse Nat)
      = (Except.error (ApiException.InvalidTrackingIdException
          ("The tracking id is required for affiliate links")), 0) :=
  @claim_C2 Nat sampleClientNoTracking StrArg.none LinkType.NORMAL
    ⟨1, [5]⟩ (by decide)

/-- C7: on a client with a configured tracking id, when the mocked response
has total_result_count one and carries exactly one promotion link, the call
returns the single-element list holding that link unchanged, after exactly
one transport invocation. -/
theorem claim_C7 {Link : Type} (self : AliexpressApi) (links : StrArg)
    (link_type : LinkType) (link : Link)
    (transport : LinkGenerateResponse Link)
    (htrack : pyTruthyStr self._tracking_id = true)
    (hcount : transport.total_result_count = 1)
    (hlink : transport.promotion_link = [link]) :
    get_affiliate_links self links link_type transport
      = (Except.ok [link], 1) := by
  simp [get_affiliate_links, htrack, hcount, hlink]

/-- Witness for C7, the scenario of the spec: tracking id abc123, one link to
convert with the hot link type, a mocked response with total_result_count one
and one promotion link. -/
theorem claim_C7_witness :
    get_affiliate_links sampleClient (StrArg.list [("http://x.com/p/1")])
        LinkType.HOT (⟨1, [("PROMO")]⟩ : LinkGenerateResponse String)
      = (Except.ok [("PROMO")], 1) :=
  @claim_C7 String sampleClient (StrArg.list [("http://x.com/p/1")])
    LinkType.HOT ("PROMO") ⟨1, [("PROMO")]⟩ (by decide) rfl rfl

/-- C10: the guard of get_affiliate_links tests Python truthiness, not only
None: a client constructed with the empty string as tracking id raises the
same InvalidTrackingIdException with zero transport invocations. -/
theorem claim_C10 {Link : Type} (self : AliexpressApi) (links : StrArg)
    (link_type : LinkType) (transport : LinkGenerateResponse Link)
    (h : self._tracking_id = some ("")) :
    get_affiliate_links self links link_type transport
      = (Except.error (ApiException.InvalidTrackingIdException
          ("The tracking id is required for affiliate links")), 0) := by
  have hfalse : pyTruthyStr self._tracking_id = false := by
    rw [h]; decide
  simp [get_affiliate_links, hfalse]

/-- Witness for C10: the client whose tracking id is the empty string,
against a mocked response that would otherwise succeed. -/
theorem claim_C10_witness :
    get_affiliate_links sampleClientEmptyTracking StrArg.none LinkType.NORMAL
        (⟨1, [(5 : Nat)]⟩ : LinkGenerateResponse Nat)
      = (Except.error (ApiException.InvalidTrackingIdException
          ("The tracking id is required for affiliate links")), 0) :=
  @claim_C10 Nat sampleClientEmptyTracking StrArg.none LinkType.NORMAL
    ⟨1, [5]⟩ rfl

/-- A concrete category cache for witnesses, the scenario of the spec: one
parent category (id 1, no parent-id field) and two child categories with
parent ids 100 and 200. -/
def sampleCategories : List Category :=
  [{ category_id := 1
     category_name := "parent"
     parent_category_id := Option.none },
   { category_id := 2
     category_name := "child100"
     parent_category_id := some 100 },
   { category_id := 3
     category_name := "child200"
     parent_category_id := some 200 }]

/-- Case analysis of get_categories: either the transport delivered a
response with a positive total_result_count, the fetched list is returned
and becomes the cache, or the call fails (transport error or zero count)
with the cache unchanged; in both cases exactly one transport call is
made. -/
theorem get_categories_spec (self : AliexpressApi)
    (cache : Option (List Category))
    (t : Except String CategoryGetResponse) :
    (∃ r, t = Except.ok r ∧ r.total_result_count > 0 ∧
      get_categories self cache t
        = (Except.ok r.categories, some r.categories, 1))
    ∨ (∃ e, get_categories self cache t = (Except.error e, cache, 1)) := by
  cases t with
  | error e => exact Or.inr ⟨ApiException.ApiRequestException e, rfl⟩
  | ok r =>
    by_cases h : r.total_result_count > 0
    · exact Or.inl ⟨r, rfl, h, by simp [get_categories, h]⟩
    · exact Or.inr ⟨ApiException.CategoriesNotFoudException
        ("No categories found"), by simp [get_categories, h]⟩

/-- C4: the category cache is never partially updated: every get_categories
call either succeeds, returning the fetched list which wholesale replaces
the cache, or raises (zero categories or a transport error) with the cache
exactly as it was before the call. -/
theorem claim_C4 (self : AliexpressApi) (cache : Option (List Category))
    (transport : Except String CategoryGetResponse) :
    (∃ r, transport = Except.ok r ∧ r.total_result_count > 0 ∧
      get_categories self cache transport
        = (Except.ok r.categories, some r.categories, 1))
    ∨ (∃ e, get_categories self cache transport
        = (Except.error e, cache, 1)) :=
  get_categories_spec self cache transport

/-- C3: with the cache populated (a nonempty cached list), the parent and
child category accessors with use_cache true make zero transport calls;
with use_cache false each makes exactly one transport call, whatever the
cache and whatever the transport outcome. -/
theorem claim_C3 (self : AliexpressApi) (cs : List Category) (pid : Int)
    (cacheAny : Option (List Category))
    (t1 t2 : Except String CategoryGetResponse)
    (hne : cs ≠ []) :
    (get_parent_categories self true (some cs) t1).2.2 = 0
    ∧ (get_child_categories self pid true (some cs) t1).2.2 = 0
    ∧ (get_parent_categories self false cacheAny t2).2.2 = 1
    ∧ (get_child_categories self pid false cacheAny t2).2.2 = 1 := by
  have htr : pyTruthyCache (some cs) = true := by
    cases cs with
    | nil => exact absurd rfl hne
    | cons a l => rfl
  refine ⟨?_, ?_, ?_, ?_⟩
  · simp [get_parent_categories, htr]
  · simp [get_child_categories, htr]
  · rcases get_categories_spec self cacheAny t2 with ⟨r, _, _, hgc⟩ | ⟨e, hgc⟩ <;>
      simp [get_parent_categories, hgc]
  · rcases get_categories_spec self cacheAny t2 with ⟨r, _, _, hgc⟩ | ⟨e, hgc⟩ <;>
      simp [get_child_categories, hgc]

/-- Witness for C3: the sample cache of three categories; with use_cache
true no transport call happens (the mocked transport would even fail); with
use_cache false one transport call happens even when the cache is empty and
the transport errors. -/
theorem claim_C3_witness :
    (get_parent_categories sampleClient true (some sampleCategories)
        (Except.ok ⟨0, []⟩)).2.2 = 0
    ∧ (get_child_categories sampleClient 100 true (some sampleCategories)
        (Except.ok ⟨0, []⟩)).2.2 = 0
    ∧ (get_parent_categories sampleClient false Option.none
        (Except.error ("boom"))).2.2 = 1
    ∧ (get_child_categories sampleClient 100 false Option.none
        (Except.error ("boom"))).2.2 = 1 :=
  claim_C3 sampleClient sampleCategories 100 Option.none
    (Except.ok ⟨0, []⟩) (Except.error ("boom")) (by decide)

/-- C8: with a populated cache and use_cache true, get_child_categories
returns exactly the cached categories whose parent-id field equals the given
parent category id, with no transport call and the cache unchanged. -/
theorem claim_C8 (self : AliexpressApi) (cs : List Category) (pid : Int)
    (t : Except String CategoryGetResponse) (hne : cs ≠ []) :
    get_child_categories self pid true (some cs) t
      = (Except.ok (filter_child_categories cs pid), some cs, 0) := by
  have htr : pyTruthyCache (some cs) = true := by
    cases cs with
    | nil => exact absurd rfl hne
    | cons a l => rfl
  simp [get_child_categories, htr]

/-- Witness for C8, the scenario of the spec: against the cache holding one
parent (id 1) and two children (parent ids 100 and 200), asking for the
children of parent 100 returns exactly the one child whose parent id is
100. -/
theorem claim_C8_witness :
    get_child_categories sampleClient 100 true (some sampleCategories)
        (Except.ok ⟨0, []⟩)
      = (Except.ok [{ category_id := 2
                      category_name := "child100"
                      parent_category_id := some 100 }],
         some sampleCategories, 0) := by
  have h := claim_C8 sampleClient sampleCategories 100
    (Except.ok ⟨0, []⟩) (by decide)
  rw [h]
  have hf : filter_child_categories sampleCategories 100
      = [{ category_id := 2
           category_name := "child100"
           parent_category_id := some 100 }] := by decide
  rw [hf]

/-- C5: smart_match_product raises ProductsNotFoudException exactly when the
response lacks a products attribute or that attribute is Python-falsy
(products = none); when the attribute is present and truthy, the envelope is
returned with its records mapped through the shared product-parsing
transform. -/
theorem claim_C5 {Raw Parsed : Type} (self : AliexpressApi)
    (device_id : String) (app : PyVal) (country device : Option String)
    (fields : StrArg) (kw : Option String) (page_no : Option Int)
    (product_id site tc tl tid user : Option String)
    (parse_product : Raw → Parsed)
    (transport : ProductSmartmatchResponse Raw) :
    (smart_match_product self device_id app country device fields kw page_no
        product_id site tc tl tid user parse_product transport
      = Except.error (ApiException.ProductsNotFoudException
          ("No products found with current parameters"))
      ↔ transport.products = Option.none)
    ∧ ∀ l, transport.products = some l →
        smart_match_product self device_id app country device fields kw
          page_no product_id site tc tl tid user parse_product transport
        = Except.ok { products := parse_products parse_product l } := by
  refine ⟨?_, ?_⟩
  · cases hp : transport.products with
    | none => simp [smart_match_product, hp]
    | some l => simp [smart_match_product, hp]
  · intro l hl
    simp [smart_match_product, hl]

/-- Witness for C5: a response whose products attribute carries one raw
record is parsed through the transform and returned in the envelope. -/
theorem claim_C5_witness :
    smart_match_product sampleClient ("device-1") PyVal.none Option.none
        Option.none StrArg.none Option.none Option.none Option.none
        Option.none Option.none Option.none Option.none Option.none
        (fun n : Nat => n + 1) ⟨some [41]⟩
      = Except.ok { products := [42] } := by
  have h := (claim_C5 sampleClient ("device-1") PyVal.none Option.none
    Option.none StrArg.none Option.none Option.none Option.none Option.none
    Option.none Option.none Option.none Option.none (fun n : Nat => n + 1)
    ⟨some [41]⟩).2 [41] rfl
  exact h.trans (congrArg
    (fun l : List Nat =>
      (Except.ok ⟨l⟩ : Except ApiException (SmartmatchResult Nat)))
    (by decide))

/-- Counterexample to C6 as stated: with delivery_days None the built
request does not carry None in its delivery_days field; the assignment
str(delivery_days) produces the literal string None, in both get_products
and get_hotproducts request construction. -/
theorem claim_C6_counterexample :
    (buildProductQueryRequest sampleClient StrArg.none Option.none
        StrArg.none Option.none Option.none Option.none Option.none
        Option.none Option.none Option.none Option.none).delivery_days
      = some ("None")
    ∧ (buildProductQueryRequest sampleClient StrArg.none Option.none
        StrArg.none Option.none Option.none Option.none Option.none
        Option.none Option.none Option.none Option.none).delivery_days
      ≠ Option.none
    ∧ (buildHotproductQueryRequest sampleClient StrArg.none Option.none
        StrArg.none Option.none Option.none Option.none Option.none
        Option.none Option.none Option.none Option.none).delivery_days
      ≠ Option.none := by
  refine ⟨rfl, ?_, ?_⟩ <;> decide

/-- C6 (amended): in get_products and get_hotproducts the optional inputs
that flow through the list normalizer (category_ids, fields) are placed in
the built request as None when None or empty; delivery_days however is
unconditionally stringified: an integer becomes its decimal string and None
becomes the literal string None, never the value None. -/
theorem claim_C6_amended (self : AliexpressApi)
    (ci fi : StrArg) (kw : Option String) (p1 p2 p3 p4 : Option Int)
    (s1 s2 s3 : Option String) (dd : Option Int) (n : Int)
    (hci : ci = StrArg.none ∨ ci = StrArg.list [])
    (hfi : fi = StrArg.none ∨ fi = StrArg.list []) :
    (buildProductQueryRequest self ci dd fi kw p1 p2 p3 p4 s1 s2 s3).category_ids
      = Option.none
    ∧ (buildProductQueryRequest self ci dd fi kw p1 p2 p3 p4 s1 s2 s3).fields
      = Option.none
    ∧ (buildProductQueryRequest self ci Option.none fi kw p1 p2 p3 p4 s1 s2 s3).delivery_days
      = some ("None")
    ∧ (buildProductQueryRequest self ci (some n) fi kw p1 p2 p3 p4 s1 s2 s3).delivery_days
      = some (toString n)
    ∧ (buildHotproductQueryRequest self ci dd fi kw p1 p2 p3 p4 s1 s2 s3).category_ids
      = Option.none
    ∧ (buildHotproductQueryRequest self ci dd fi kw p1 p2 p3 p4 s1 s2 s3).fields
      = Option.none
    ∧ (buildHotproductQueryRequest self ci Option.none fi kw p1 p2 p3 p4 s1 s2 s3).delivery_days
      = some ("None")
    ∧ (buildHotproductQueryRequest self ci (some n) fi kw p1 p2 p3 p4 s1 s2 s3).delivery_days
      = some (toString n) := by
  rcases hci with h | h <;> rcases hfi with h2 | h2 <;> subst h <;> subst h2 <;>
    exact ⟨rfl, rfl, rfl, rfl, rfl, rfl, rfl, rfl⟩

/-- Witness for C6 (amended) at concrete inputs: category_ids None, fields
the empty list, delivery_days None in the None conjuncts and 7 in the
integer conjuncts. -/
theorem claim_C6_amended_witness :
    (buildProductQueryRequest sampleClient StrArg.none Option.none
        (StrArg.list []) Option.none Option.none Option.none Option.none
        Option.none Option.none Option.none Option.none).category_ids
      = Option.none
    ∧ (buildProductQueryRequest sampleClient StrArg.none Option.none
        (StrArg.list []) Option.none Option.none Option.none Option.none
        Option.none Option.none Option.none Option.none).fields
      = Option.none
    ∧ (buildProductQueryRequest sampleClient StrArg.none Option.none
        (StrArg.list []) Option.none Option.none Option.none Option.none
        Option.none Option.none Option.none Option.none).delivery_days
      = some ("None")
    ∧ (buildProductQueryRequest sampleClient StrArg.none (some 7)
        (StrArg.list []) Option.none Option.none Option.none Option.none
        Option.none Option.none Option.none Option.none).delivery_days
      = some (toString (7 : Int))
    ∧ (buildHotproductQueryRequest sampleClient StrArg.none Option.none
        (StrArg.list []) Option.none Option.none Option.none Option.none
        Option.none Option.none Option.none Option.none).category_ids
      = Option.none
    ∧ (buildHotproductQueryRequest sampleClient StrArg.none Option.none
        (StrArg.list []) Option.none Option.none Option.none Option.none
        Option.none Option.none Option.none Option.none).fields
      = Option.none
    ∧ (buildHotproductQueryRequest sampleClient StrArg.none Option.none
        (StrArg.list []) Option.none Option.none Option.none Option.none
        Option.none Option.none Option.none Option.none).delivery_days
      = some ("None")
    ∧ (buildHotproductQueryRequest sampleClient StrArg.none (some 7)
        (StrArg.list []) Option.none Option.none Option.none Option.none
        Option.none Option.none Option.none Option.none).delivery_days
      = some (toString (7 : Int)) :=
  claim_C6_amended sampleClient StrArg.none (StrArg.list []) Option.none
    Option.none Option.none Option.none Option.none Option.none Option.none
    Option.none Option.none 7 (Or.inl rfl) (Or.inr rfl)

/-- A one-element tuple is never equal to its own element: the sizes
differ. -/
theorem pyval_tuple_ne (v : PyVal) : PyVal.tuple [v] ≠ v := by
  intro h
  have hs := congrArg sizeOf h
  simp only [PyVal.tuple.sizeOf_spec, List.cons.sizeOf_spec,
    List.nil.sizeOf_spec] at hs
  omega

/-- C9: the trailing comma in the assignment request.app = app, makes the
app field of the smart match request the one-element tuple holding the
argument, and this field value is never equal to the argument itself. -/
theorem claim_C9 (self : AliexpressApi) (device_id : String) (app : PyVal)
    (country device : Option String) (fields : StrArg) (kw : Option String)
    (page_no : Option Int) (product_id site tc tl tid user : Option String) :
    (buildProductSmartmatchRequest self device_id app country device fields
        kw page_no product_id site tc tl tid user).app = PyVal.tuple [app]
    ∧ (buildProductSmartmatchRequest self device_id app country device fields
        kw page_no product_id site tc tl tid user).app ≠ app := by
  refine ⟨rfl, ?_⟩
  show PyVal.tuple [app] ≠ app
  exact pyval_tuple_ne app

/-- Witness for C9: with the string myapp as the app argument, the built
request carries the one-element tuple of that string, which differs from the
string itself. -/
theorem claim_C9_witness :
    (buildProductSmartmatchRequest sampleClient ("device-1")
        (PyVal.str ("myapp")) Option.none Option.none StrArg.none
        Option.none Option.none Option.none Option.none Option.none
        Option.none Option.none Option.none).app
      = PyVal.tuple [PyVal.str ("myapp")]
    ∧ (buildProductSmartmatchRequest sampleClient ("device-1")
        (PyVal.str ("myapp")) Option.none Option.none StrArg.none
        Option.none Option.none Option.none Option.none Option.none
        Option.none Option.none Option.none).app
      ≠ PyVal.str ("myapp") :=
  claim_C9 sampleClient ("device-1") (PyVal.str ("myapp")) Option.none
    Option.none StrArg.none Option.none Option.none Option.none Option.none
    Option.none Option.none Option.none Option.none

end Aliexpress
